import Mathlib

/-!
Verification of the spreadsheet-to-JSON extraction engine of this repository
(`scripts/sync_onedrive_to_datajson.mjs` and the second, unnamed copy of the
same script).  The JavaScript code is shallowly embedded: cells of the sheet
(as produced by `XLSX.utils.sheet_to_json(ws, {header:1, defval:""})`) are
modelled by the `Cell` type (a string, a number, or JS `undefined` for an
out-of-range read); JS numbers are modelled by `JSNum` (an exact rational,
NaN, or a signed infinity); the `for` loops of the source are modelled by
fuel-indexed structural recursions whose fuel is exactly the number of
remaining loop iterations, so that every function evaluates inside the
kernel.  All definitions are transcribed from the source files; the only
spec-shaped definitions are the declarative scan characterisations used to
state the loop-behaviour claims, each clearly marked as such.
-/

set_option maxHeartbeats 2000000
set_option maxRecDepth 4000

unseal Rat.mul Rat.add Rat.inv Rat.sub

namespace Divida

/-! ## JS scalar values -/

/-- A JavaScript number: an exact rational for the finite values that arise
from the decimal texts of this workbook, or one of the non-finite values.
(Binary-64 rounding is not modelled; every numeral appearing in the claims
is reproduced exactly.) -/
inductive JSNum where
  | finite (q : ℚ)
  | nan
  | posInf
  | negInf
deriving Repr, DecidableEq

/-- A cell value as delivered by `sheet_to_json(ws, {header:1, defval:""})`:
a string, a number, or JS `undefined` for an index outside the row. -/
inductive Cell where
  | str (s : String)
  | num (v : JSNum)
  | undef
deriving Repr, DecidableEq

abbrev Row := List Cell
abbrev Grid := List Row

/-- Models `row[c]` in JS: `undefined` when the index is out of range. -/
def cellOf (row : Row) (c : Nat) : Cell := row.getD c Cell.undef

/-- Models `rows[r] || []` (and the guarded uses of `rows[r]`, where the
source only indexes rows below `rows.length`). -/
def rowOf (rows : Grid) (r : Nat) : Row := rows.getD r []

/-- Models `rows[r][c]` for a row index that is in range (or guarded by
`|| []`) and an arbitrary column index. -/
def cellAt (rows : Grid) (r c : Nat) : Cell := cellOf (rowOf rows r) c

/-! ## JS string primitives (trim, toLowerCase, String(·)) -/

/-- Drops leading whitespace characters from a character list. -/
def dropLeadingWs : List Char → List Char
  | [] => []
  | c :: cs => if c.isWhitespace then dropLeadingWs cs else c :: cs

/-- Models `String.prototype.trim` (for the whitespace characters used in
this development: space, tab, CR, LF). -/
def jsTrim (s : String) : String :=
  String.mk ((dropLeadingWs ((dropLeadingWs s.toList).reverse)).reverse)

/-- Models `String.prototype.toLowerCase` (ASCII letters are lowered;
other characters — including the already-lowercase accented letters used in
the sheet texts — are unchanged). -/
def jsToLower (s : String) : String := String.mk (s.toList.map Char.toLower)

/-- Digit character for a value below ten. -/
def digitChar (n : Nat) : Char := Char.ofNat (48 + n)

/-- Decimal digits of a natural number (fuel-indexed, fuel bounds the digit
count). -/
def natToDigitsAux : Nat → Nat → List Char
  | 0, _ => []
  | fuel+1, n => if n < 10 then [digitChar n]
                 else natToDigitsAux fuel (n / 10) ++ [digitChar (n % 10)]

/-- Decimal rendering of a natural number. -/
def natToString (n : Nat) : String := String.mk (natToDigitsAux (n+1) n)

/-- Decimal rendering of an integer. -/
def intToString (i : Int) : String :=
  if i < 0 then "-" ++ natToString i.natAbs else natToString i.natAbs

/-- Fractional decimal digits of `rem / den` (fuel-bounded; every number
that occurs in the workbook texts terminates well within the fuel). -/
def fracDigitsAux : Nat → Nat → Nat → List Char
  | 0, _, _ => []
  | _, 0, _ => []
  | fuel+1, rem, den =>
      digitChar (rem * 10 / den) :: fracDigitsAux fuel (rem * 10 % den) den

/-- Decimal rendering of a rational, modelling `String(number)` on the
terminating-decimal values that JS numbers of this workbook take. -/
def ratToString (q : ℚ) : String :=
  let sign := if q < 0 then "-" else ""
  let n := q.num.natAbs
  let d := q.den
  if n % d = 0 then sign ++ natToString (n / d)
  else sign ++ natToString (n / d) ++ "." ++ String.mk (fracDigitsAux 32 (n % d) d)

/-- Models `String(number)`. -/
def jsNumToString : JSNum → String
  | .nan => "NaN"
  | .posInf => "Infinity"
  | .negInf => "-Infinity"
  | .finite q => ratToString q

/-- Models `String(x)` on a cell value (`String(undefined)` is the string
`"undefined"`). -/
def jsString : Cell → String
  | .str s => s
  | .num v => jsNumToString v
  | .undef => "undefined"

/-- Models `String(x ?? "")` on a cell value: `undefined` becomes `""`. -/
def jsStringD : Cell → String
  | .undef => ""
  | .str s => s
  | .num v => jsNumToString v

/-! ## JS `Number(string)` on the cleaned currency texts -/

/-- Numeric value of a digit list. -/
def digitsToNat (cs : List Char) : Nat :=
  cs.foldl (fun a c => a * 10 + (c.toNat - 48)) 0

/-- A non-empty all-digit list, parsed. -/
def parseDigitsNE (cs : List Char) : Option Nat :=
  if cs ≠ [] ∧ cs.all Char.isDigit then some (digitsToNat cs) else none

/-- Exponent digits with an optional sign. -/
def parseSignedDigits : List Char → Option Int
  | '+' :: rest => (parseDigitsNE rest).map Int.ofNat
  | '-' :: rest => (parseDigitsNE rest).map (fun n => -(n : Int))
  | rest => (parseDigitsNE rest).map Int.ofNat

/-- Optional `e`/`E` exponent suffix; `none` when the tail is not a valid
exponent (which makes the whole literal invalid, as in JS). -/
def parseExp : List Char → Option Int
  | [] => some 0
  | 'e' :: rest => parseSignedDigits rest
  | 'E' :: rest => parseSignedDigits rest
  | _ => none

/-- Scales a rational by a power of ten (for exponent suffixes). -/
def applyExp (q : ℚ) (e : Int) : ℚ :=
  if 0 ≤ e then q * (10 : ℚ) ^ e.toNat else q / (10 : ℚ) ^ (-e).toNat

/-- An unsigned decimal literal `digits [. digits] [exp]` or `. digits [exp]`. -/
def parseUnsignedDec (cs : List Char) : Option ℚ :=
  let ip := cs.takeWhile Char.isDigit
  let rest1 := cs.dropWhile Char.isDigit
  match rest1 with
  | '.' :: rest2 =>
      let fp := rest2.takeWhile Char.isDigit
      let rest3 := rest2.dropWhile Char.isDigit
      if ip = [] ∧ fp = [] then none
      else (parseExp rest3).map (fun e =>
        applyExp ((digitsToNat ip : ℚ) + (digitsToNat fp : ℚ) / (10 : ℚ) ^ fp.length) e)
  | rest2 =>
      if ip = [] then none
      else (parseExp rest2).map (fun e => applyExp (digitsToNat ip : ℚ) e)

/-- A decimal literal with an optional sign. -/
def parseSignedDec : List Char → Option ℚ
  | '+' :: rest => parseUnsignedDec rest
  | '-' :: rest => (parseUnsignedDec rest).map Neg.neg
  | cs => parseUnsignedDec cs

/-- Models `Number(string)` for the string shapes reachable from the cleaned
currency texts: the empty/whitespace string is `0`, decimal literals take
their value, `Infinity` forms are infinite, anything else is `NaN`
(non-decimal numeric notations such as hex, which cannot result from the
cleaning pipeline, are also mapped to `NaN`). -/
def jsStrToNum (s : String) : JSNum :=
  let t := jsTrim s
  if t = "" then .finite 0
  else if t = "Infinity" ∨ t = "+Infinity" then .posInf
  else if t = "-Infinity" then .negInf
  else match parseSignedDec t.toList with
       | some q => .finite q
       | none => .nan

/-- Models `Number.isFinite`. -/
def isFiniteJS : JSNum → Bool
  | .finite _ => true
  | _ => false

/-! ## The three `replace` calls of the currency cleaner -/

/-- Models `s.replace(/R\$\s?/g, "")`: every occurrence of `R$`, together
with at most one following whitespace character, is removed.  Fuel-indexed;
the fuel (the input length) bounds the number of scan steps. -/
def stripBRLAux : Nat → List Char → List Char
  | 0, _ => []
  | fuel+1, cs =>
      match cs with
      | [] => []
      | 'R' :: '$' :: rest =>
          match rest with
          | [] => []
          | c :: rest2 =>
              if c.isWhitespace then stripBRLAux fuel rest2 else stripBRLAux fuel rest
      | c :: rest => c :: stripBRLAux fuel rest

/-- Models `s.replace(/R\$\s?/g, "")`. -/
def stripBRL (cs : List Char) : List Char := stripBRLAux cs.length cs

/-- Models `s.replace(/\./g, "")`. -/
def removeDots (cs : List Char) : List Char := cs.filter (fun c => c ≠ '.')

/-- Models `s.replace(/,/g, ".")`. -/
def commaToDot (cs : List Char) : List Char :=
  cs.map (fun c => if c = ',' then '.' else c)

/-- A JS stable sort (ECMAScript `Array.prototype.sort` with a consistent
comparator): an element is placed before another exactly when the comparator
orders it strictly earlier, and elements the comparator ties keep their
original relative order.  `gt x y` means the comparator orders `x` strictly
before `y`. -/
def stableInsertBy (gt : α → α → Bool) (x : α) : List α → List α
  | [] => [x]
  | y :: ys => if gt x y then x :: y :: ys else y :: stableInsertBy gt x ys

/-- Stable sort by a strict comparison, modelling `Array.prototype.sort`. -/
def stableSortBy (gt : α → α → Bool) (l : List α) : List α :=
  l.foldl (fun acc x => stableInsertBy gt x acc) []

/-! ## `scripts/sync_onedrive_to_datajson.mjs`: scalar helpers -/

/-- `brlToNumber` of `scripts/sync_onedrive_to_datajson.mjs`: `null` for a
nullish or blank cell, a number cell is returned as-is (before any
finiteness check), otherwise the text is cleaned
(`/R\$\s?/g → ""`, `/\./g → ""`, `/,/g → "."`) and parsed, with non-finite
parse results mapped to `null`. -/
def brlToNumber : Cell → Option JSNum
  | .undef => none
  | .num v => some v
  | .str s =>
      let t := jsTrim s
      if t = "" then none
      else
        let n := jsStrToNum (String.mk (commaToDot (removeDots (stripBRL t.toList))))
        if isFiniteJS n then some n else none

/-- The `monthMap` lookup table of the script (twelve months, with the
accented and unaccented spelling of March as synonyms). -/
def monthMap (s : String) : Option Nat :=
  if s = "janeiro" then some 1
  else if s = "fevereiro" then some 2
  else if s = "março" then some 3
  else if s = "marco" then some 3
  else if s = "abril" then some 4
  else if s = "maio" then some 5
  else if s = "junho" then some 6
  else if s = "julho" then some 7
  else if s = "agosto" then some 8
  else if s = "setembro" then some 9
  else if s = "outubro" then some 10
  else if s = "novembro" then some 11
  else if s = "dezembro" then some 12
  else none

/-- `normalize` of the script: trim then lowercase (its argument is always
a string here, so the `s || ""` coercion is the identity on the result). -/
def normalize (s : String) : String := jsToLower (jsTrim s)

/-- Models `String(mm).padStart(2, "0")` for a month number. -/
def pad2 (n : Nat) : String :=
  if n < 10 then "0" ++ natToString n else natToString n

/-- `isoDateFromMonth` of the script: `null` for an unrecognised month,
otherwise `YYYY-MM-01`. -/
def isoDateFromMonth (monthName : String) (year : Nat) : Option String :=
  match monthMap (normalize monthName) with
  | none => none
  | some mm => some (natToString year ++ "-" ++ pad2 mm ++ "-01")

/-! ## Output record shapes (the `data.json` contract) -/

/-- One row of `dashboard.tabela1`. -/
structure SummaryRow where
  month : String
  date : Option String
  entrada : Option JSNum
  saida : Option JSNum
  liquido : Option JSNum
  diferenca_m1 : Option JSNum
  crescimento : Option String
deriving Repr, DecidableEq

/-- One row of `dashboard.tabela2` / `dashboard.tabela3`. -/
structure SeriesPoint where
  month : String
  date : Option String
  saida : Option JSNum
deriving Repr, DecidableEq

/-- One line item of a monthly block. -/
structure LineItem where
  desc : String
  amount : JSNum
deriving Repr, DecidableEq

/-- One entry of `detalheMensal`. -/
structure PeriodDetail where
  date : Option String
  entradas : List LineItem
  saidas : List LineItem
deriving Repr, DecidableEq

/-- The `meta` record. -/
structure Meta where
  year : Nat
  updatedAt : String
deriving Repr, DecidableEq

/-- The `dashboard` record. -/
structure Dashboard where
  tabela1 : List SummaryRow
  tabela2 : List SeriesPoint
  tabela3 : List SeriesPoint
deriving Repr, DecidableEq

/-- The whole output record; `detalheMensal` is a JS object modelled as an
association list in key-insertion order. -/
structure Result where
  meta : Meta
  dashboard : Dashboard
  detalheMensal : List (String × PeriodDetail)
deriving Repr, DecidableEq

/-- Models `obj[k] = v` on a JS object held as an insertion-ordered
association list: an existing key keeps its position and gets the new
value, a fresh key is appended. -/
def upsert (k : String) (v : PeriodDetail) :
    List (String × PeriodDetail) → List (String × PeriodDetail)
  | [] => [(k, v)]
  | (k', v') :: rest => if k' = k then (k, v) :: rest else (k', v') :: upsert k v rest

/-- Models reading `obj[k]` on the same representation. -/
def alookup (k : String) : List (String × PeriodDetail) → Option PeriodDetail
  | [] => none
  | (k', v) :: rest => if k' = k then some v else alookup k rest

/-! ## Tabela1: the primary summary table -/

/-- `String(rows[r][c]).trim()`, the cell text read everywhere in the
scanners. -/
def cellStr (rows : Grid) (r c : Nat) : String := jsTrim (jsString (cellAt rows r c))

/-- The header test of the tabela1 scan: the lowercased trimmed cells of the
row contain an inflow, an outflow and a net label. -/
def isHeaderRow (row : Row) : Bool :=
  let m := row.map (fun x => jsToLower (jsTrim (jsString x)))
  m.contains "entrada" && (m.contains "saída" || m.contains "saida")
    && (m.contains "líquido" || m.contains "liquido")

/-- The header search of the tabela1 scan: the first row among the first 80
whose cells contain all three labels. -/
def findHeaderRow (rows : Grid) : Option Nat :=
  (List.range (min rows.length 80)).find? (fun r => isHeaderRow (rowOf rows r))

/-- The `push`ed record of the tabela1 scan at row `r` with period text
`month`. -/
def mkSummaryRow (rows : Grid) (r : Nat) (month : String) : SummaryRow :=
  { month := month
    date := isoDateFromMonth month 2026
    entrada := brlToNumber (cellAt rows r 1)
    saida := brlToNumber (cellAt rows r 2)
    liquido := brlToNumber (cellAt rows r 3)
    diferenca_m1 := brlToNumber (cellAt rows r 4)
    crescimento := if jsTrim (jsString (cellAt rows r 5)) = "" then none
                   else some (jsTrim (jsString (cellAt rows r 5))) }

/-- The tabela1 data loop (`for r in headerRow+1 .. rows.length`): blank
first cells and unrecognised non-month texts are skipped, the `total`
sentinel breaks, month rows are emitted.  Fuel-indexed: the fuel is the
number of remaining iterations. -/
def scanT1Aux (rows : Grid) : Nat → Nat → List SummaryRow
  | 0, _ => []
  | fuel+1, r =>
      if r < rows.length then
        if cellStr rows r 0 = "" then scanT1Aux rows fuel (r+1)
        else if (monthMap (normalize (cellStr rows r 0))).isNone then
          if normalize (cellStr rows r 0) = "total" then []
          else scanT1Aux rows fuel (r+1)
        else mkSummaryRow rows r (cellStr rows r 0) :: scanT1Aux rows fuel (r+1)
      else []

/-- The tabela1 data loop from row `r`. -/
def scanT1 (rows : Grid) (r : Nat) : List SummaryRow :=
  scanT1Aux rows (rows.length - r) r

/-- The whole tabela1 extraction: empty when no header row is found. -/
def tabela1Scan (rows : Grid) : List SummaryRow :=
  match findHeaderRow rows with
  | some h => scanT1 rows (h + 1)
  | none => []

/-! ## Tabela2/3: `parseMini` -/

/-- The title test of `parseMini`: some trimmed cell of the row equals the
lowercased title after lowercasing. -/
def rowHasTitle (row : Row) (t : String) : Bool :=
  (row.map (fun x => jsTrim (jsString x))).any (fun c => jsToLower c == t)

/-- The title search of `parseMini`: the first row with a matching cell. -/
def findTitleRow (rows : Grid) (t : String) : Option Nat :=
  (List.range rows.length).find? (fun r => rowHasTitle (rowOf rows r) t)

/-- The data record pushed by the `parseMini` loop at row `rr`. -/
def mkSeriesPoint (rows : Grid) (rr : Nat) : SeriesPoint :=
  { month := cellStr rows rr 0
    date := isoDateFromMonth (cellStr rows rr 0) 2026
    saida := brlToNumber (cellAt rows rr 1) }

/-- The `parseMini` data loop (`for rr in r+1 .. min(rows.length, r+40)`):
blank first cells are skipped, the `total` sentinel breaks, non-month texts
are skipped, month rows are emitted.  Fuel-indexed. -/
def miniScanAux (rows : Grid) (stop : Nat) : Nat → Nat → List SeriesPoint
  | 0, _ => []
  | fuel+1, rr =>
      if rr < stop then
        if cellStr rows rr 0 = "" then miniScanAux rows stop fuel (rr+1)
        else if normalize (cellStr rows rr 0) = "total" then []
        else if (monthMap (normalize (cellStr rows rr 0))).isNone then
          miniScanAux rows stop fuel (rr+1)
        else mkSeriesPoint rows rr :: miniScanAux rows stop fuel (rr+1)
      else []

/-- The `parseMini` data loop from row `rr` with end bound `stop`. -/
def miniScan (rows : Grid) (stop rr : Nat) : List SeriesPoint :=
  miniScanAux rows stop (stop - rr) rr

/-- `parseMini` of the script: locate the first row containing the title
(case-insensitively, on trimmed cells) and read the rows below it; an
absent title gives the empty list. -/
def parseMini (rows : Grid) (title : String) : List SeriesPoint :=
  match findTitleRow rows (jsToLower title) with
  | some r => miniScan rows (min rows.length (r + 40)) (r + 1)
  | none => []

/-! ## Tabela4: `findMonthAnchors` and the per-month blocks -/

/-- A block anchor: the trimmed month text and its cell coordinates. -/
structure Anchor where
  month : String
  r : Nat
  c : Nat
deriving Repr, DecidableEq

/-- The anchor test at a cell: a non-blank month-name text whose next row
contains, within 20 columns from that column, both an inflow and an outflow
label. -/
def anchorAt (rows : Grid) (r c : Nat) : Bool :=
  let val := cellStr rows r c
  if val = "" then false
  else if (monthMap (normalize val)).isNone then false
  else
    let next := (((rowOf rows (r+1)).drop c).take 20).map
      (fun x => jsToLower (jsTrim (jsString x)))
    next.contains "entrada" && (next.contains "saída" || next.contains "saida")

/-- `findMonthAnchors` of the script: every anchor cell, scanning rows top
to bottom and, within a row, the first `min(row length, 250)` columns left
to right. -/
def findMonthAnchors (rows : Grid) : List Anchor :=
  ((List.range rows.length).map (fun r =>
    (List.range (min (rowOf rows r).length 250)).filterMap (fun c =>
      if anchorAt rows r c then some ⟨cellStr rows r c, r, c⟩ else none))).flatten

/-- The sub-header slice of a block: 30 columns of the row below the
anchor, trimmed and lowercased. -/
def headerSlice (rows : Grid) (a : Anchor) : List String :=
  (((rowOf rows (a.r+1)).drop a.c).take 30).map (fun x => jsToLower (jsTrim (jsString x)))

/-- The description/value column pair of both sides of a block, or `none`
when a label is missing from the sub-header window (`eRel<0||sRel<0`). -/
def blockCols (rows : Grid) (a : Anchor) : Option (Nat × Nat) :=
  match (headerSlice rows a).findIdx? (fun x => x == "entrada"),
        (headerSlice rows a).findIdx? (fun x => x == "saída" || x == "saida") with
  | some eRel, some sRel => some (a.c + eRel, a.c + sRel)
  | _, _ => none

/-- `String((rows[r]||[])[c] ?? "").trim()`: the description text of a block
row. -/
def descAt (rows : Grid) (r c : Nat) : String := jsTrim (jsStringD (cellAt rows r c))

/-- One side of a block row: a line item when the description is non-blank,
is not the bare currency token, and the amount parses; `none` otherwise. -/
def pickItem (rows : Grid) (r dCol vCol : Nat) : Option LineItem :=
  if descAt rows r dCol ≠ "" ∧ normalize (descAt rows r dCol) ≠ "r$" then
    match brlToNumber (cellAt rows r vCol) with
    | some n => some ⟨descAt rows r dCol, n⟩
    | none => none
  else none

/-- The block item loop (`for r in a.r+2 .. min(rows.length, a.r+60)`):
both lists stop at the first row where either description normalises to
`total`; otherwise each side independently contributes an item when its
description and amount are valid.  Fuel-indexed. -/
def scanBlockAux (rows : Grid) (eD eV sD sV stop : Nat) :
    Nat → Nat → List LineItem × List LineItem
  | 0, _ => ([], [])
  | fuel+1, r =>
      if r < stop then
        if normalize (descAt rows r eD) = "total" ∨ normalize (descAt rows r sD) = "total"
        then ([], [])
        else
          let rest := scanBlockAux rows eD eV sD sV stop fuel (r+1)
          ((pickItem rows r eD eV).toList ++ rest.1, (pickItem rows r sD sV).toList ++ rest.2)
      else ([], [])

/-- The block item loop from row `r` with end bound `stop`. -/
def scanBlock (rows : Grid) (eD eV sD sV stop r : Nat) : List LineItem × List LineItem :=
  scanBlockAux rows eD eV sD sV stop (stop - r) r

/-- The comparator order of `saidas.sort((a,b)=>(b.amount||0)-(a.amount||0))`:
`x` is placed strictly before `y` exactly when the comparator value
`(y.amount||0)-(x.amount||0)` is negative (`NaN` amounts coerce to `0`, and
a `NaN` difference of equal infinities ties). -/
def saidaGt (x y : LineItem) : Bool :=
  match x.amount, y.amount with
  | .posInf, .posInf => false
  | .posInf, _ => true
  | _, .posInf => false
  | .negInf, _ => false
  | _, .negInf => true
  | .nan, .nan => false
  | .nan, .finite b => decide (b < 0)
  | .finite a, .nan => decide (0 < a)
  | .finite a, .finite b => decide (b < a)

/-- The `PeriodDetail` produced for an anchor, `none` when the sub-header
lacks a label (the `continue` branch). -/
def blockPeriodDetail (rows : Grid) (a : Anchor) : Option PeriodDetail :=
  match blockCols rows a with
  | none => none
  | some (eDc, sDc) =>
      let p := scanBlock rows eDc (eDc+2) sDc (sDc+2) (min rows.length (a.r+60)) (a.r+2)
      some { date := isoDateFromMonth a.month 2026
             entradas := p.1
             saidas := stableSortBy saidaGt p.2 }

/-- The body of the tabela4 loop: a processable anchor writes its detail
into the map (`out.detalheMensal[a.month] = …`), a malformed one is
skipped (`continue`). -/
def detalheStep (rows : Grid) (m : List (String × PeriodDetail)) (a : Anchor) :
    List (String × PeriodDetail) :=
  match blockPeriodDetail rows a with
  | some d => upsert a.month d m
  | none => m

/-- The tabela4 loop: every anchor's detail is written into `detalheMensal`
under the anchor's (trimmed) month text. -/
def buildDetalhe (rows : Grid) : List (String × PeriodDetail) :=
  (findMonthAnchors rows).foldl (detalheStep rows) []

/-- `parseWorkbook` of `scripts/sync_onedrive_to_datajson.mjs`.  The
workbook is the ordered list of its sheets, each already materialised by
`sheet_to_json(ws, {header:1, defval:""})` (which yields `[]` for a missing
or entirely empty first sheet); `now` is the `new Date().toISOString()`
timestamp. -/
def parseWorkbook (wb : List Grid) (now : String) : Result :=
  let rows := wb.headD []
  { meta := { year := 2026, updatedAt := now }
    dashboard := { tabela1 := tabela1Scan rows
                   tabela2 := parseMini rows "Nubank"
                   tabela3 := parseMini rows "Santander" }
    detalheMensal := buildDetalhe rows }

/-!
## The second copy of the script (`src/unnamed/part_000`)

The unnamed source file defines its own `brlToNumber`, `monthMap`,
`normalize`, `isoDateFromMonth` and `parseWorkbook`.  They are embedded
separately below, transcribed from that file, so that the behavioural
equivalence of the two files (claim C9) is a statement about two distinct
embeddings.
-/

namespace Part000

/-- `brlToNumber` of `src/unnamed/part_000`. -/
def brlToNumber : Cell → Option JSNum
  | .undef => none
  | .num v => some v
  | .str s =>
      let t := jsTrim s
      if t = "" then none
      else
        let n := jsStrToNum (String.mk (commaToDot (removeDots (stripBRL t.toList))))
        if isFiniteJS n then some n else none

/-- The `monthMap` table of `src/unnamed/part_000`. -/
def monthMap (s : String) : Option Nat :=
  if s = "janeiro" then some 1
  else if s = "fevereiro" then some 2
  else if s = "março" then some 3
  else if s = "marco" then some 3
  else if s = "abril" then some 4
  else if s = "maio" then some 5
  else if s = "junho" then some 6
  else if s = "julho" then some 7
  else if s = "agosto" then some 8
  else if s = "setembro" then some 9
  else if s = "outubro" then some 10
  else if s = "novembro" then some 11
  else if s = "dezembro" then some 12
  else none

/-- `normalize` of `src/unnamed/part_000`. -/
def normalize (s : String) : String := jsToLower (jsTrim s)

/-- `String(mm).padStart(2, "0")` in `src/unnamed/part_000`. -/
def pad2 (n : Nat) : String :=
  if n < 10 then "0" ++ natToString n else natToString n

/-- `isoDateFromMonth` of `src/unnamed/part_000`. -/
def isoDateFromMonth (monthName : String) (year : Nat) : Option String :=
  match monthMap (normalize monthName) with
  | none => none
  | some mm => some (natToString year ++ "-" ++ pad2 mm ++ "-01")

/-- The tabela1 header test of `src/unnamed/part_000`. -/
def isHeaderRow (row : Row) : Bool :=
  let m := row.map (fun x => jsToLower (jsTrim (jsString x)))
  m.contains "entrada" && (m.contains "saída" || m.contains "saida")
    && (m.contains "líquido" || m.contains "liquido")

/-- The tabela1 header search of `src/unnamed/part_000`. -/
def findHeaderRow (rows : Grid) : Option Nat :=
  (List.range (min rows.length 80)).find? (fun r => isHeaderRow (rowOf rows r))

/-- The pushed tabela1 record of `src/unnamed/part_000`. -/
def mkSummaryRow (rows : Grid) (r : Nat) (month : String) : SummaryRow :=
  { month := month
    date := isoDateFromMonth month 2026
    entrada := brlToNumber (cellAt rows r 1)
    saida := brlToNumber (cellAt rows r 2)
    liquido := brlToNumber (cellAt rows r 3)
    diferenca_m1 := brlToNumber (cellAt rows r 4)
    crescimento := if jsTrim (jsString (cellAt rows r 5)) = "" then none
                   else some (jsTrim (jsString (cellAt rows r 5))) }

/-- The tabela1 data loop of `src/unnamed/part_000`. -/
def scanT1Aux (rows : Grid) : Nat → Nat → List SummaryRow
  | 0, _ => []
  | fuel+1, r =>
      if r < rows.length then
        if cellStr rows r 0 = "" then scanT1Aux rows fuel (r+1)
        else if (monthMap (normalize (cellStr rows r 0))).isNone then
          if normalize (cellStr rows r 0) = "total" then []
          else scanT1Aux rows fuel (r+1)
        else mkSummaryRow rows r (cellStr rows r 0) :: scanT1Aux rows fuel (r+1)
      else []

/-- The tabela1 data loop of `src/unnamed/part_000` from row `r`. -/
def scanT1 (rows : Grid) (r : Nat) : List SummaryRow :=
  scanT1Aux rows (rows.length - r) r

/-- The whole tabela1 extraction of `src/unnamed/part_000`. -/
def tabela1Scan (rows : Grid) : List SummaryRow :=
  match findHeaderRow rows with
  | some h => scanT1 rows (h + 1)
  | none => []

/-- The `parseMini` title test of `src/unnamed/part_000`. -/
def rowHasTitle (row : Row) (t : String) : Bool :=
  (row.map (fun x => jsTrim (jsString x))).any (fun c => jsToLower c == t)

/-- The `parseMini` title search of `src/unnamed/part_000`. -/
def findTitleRow (rows : Grid) (t : String) : Option Nat :=
  (List.range rows.length).find? (fun r => rowHasTitle (rowOf rows r) t)

/-- The pushed `parseMini` record of `src/unnamed/part_000`. -/
def mkSeriesPoint (rows : Grid) (rr : Nat) : SeriesPoint :=
  { month := cellStr rows rr 0
    date := isoDateFromMonth (cellStr rows rr 0) 2026
    saida := brlToNumber (cellAt rows rr 1) }

/-- The `parseMini` data loop of `src/unnamed/part_000`. -/
def miniScanAux (rows : Grid) (stop : Nat) : Nat → Nat → List SeriesPoint
  | 0, _ => []
  | fuel+1, rr =>
      if rr < stop then
        if cellStr rows rr 0 = "" then miniScanAux rows stop fuel (rr+1)
        else if normalize (cellStr rows rr 0) = "total" then []
        else if (monthMap (normalize (cellStr rows rr 0))).isNone then
          miniScanAux rows stop fuel (rr+1)
        else mkSeriesPoint rows rr :: miniScanAux rows stop fuel (rr+1)
      else []

/-- The `parseMini` data loop of `src/unnamed/part_000` from row `rr`. -/
def miniScan (rows : Grid) (stop rr : Nat) : List SeriesPoint :=
  miniScanAux rows stop (stop - rr) rr

/-- `parseMini` of `src/unnamed/part_000`. -/
def parseMini (rows : Grid) (title : String) : List SeriesPoint :=
  match findTitleRow rows (jsToLower title) with
  | some r => miniScan rows (min rows.length (r + 40)) (r + 1)
  | none => []

/-- The anchor test of `src/unnamed/part_000`. -/
def anchorAt (rows : Grid) (r c : Nat) : Bool :=
  let val := cellStr rows r c
  if val = "" then false
  else if (monthMap (normalize val)).isNone then false
  else
    let next := (((rowOf rows (r+1)).drop c).take 20).map
      (fun x => jsToLower (jsTrim (jsString x)))
    next.contains "entrada" && (next.contains "saída" || next.contains "saida")

/-- `findMonthAnchors` of `src/unnamed/part_000`. -/
def findMonthAnchors (rows : Grid) : List Anchor :=
  ((List.range rows.length).map (fun r =>
    (List.range (min (rowOf rows r).length 250)).filterMap (fun c =>
      if anchorAt rows r c then some ⟨cellStr rows r c, r, c⟩ else none))).flatten

/-- The block sub-header slice of `src/unnamed/part_000`. -/
def headerSlice (rows : Grid) (a : Anchor) : List String :=
  (((rowOf rows (a.r+1)).drop a.c).take 30).map (fun x => jsToLower (jsTrim (jsString x)))

/-- The block column pair of `src/unnamed/part_000`. -/
def blockCols (rows : Grid) (a : Anchor) : Option (Nat × Nat) :=
  match (headerSlice rows a).findIdx? (fun x => x == "entrada"),
        (headerSlice rows a).findIdx? (fun x => x == "saída" || x == "saida") with
  | some eRel, some sRel => some (a.c + eRel, a.c + sRel)
  | _, _ => none

/-- One side of a block row in `src/unnamed/part_000`. -/
def pickItem (rows : Grid) (r dCol vCol : Nat) : Option LineItem :=
  if descAt rows r dCol ≠ "" ∧ normalize (descAt rows r dCol) ≠ "r$" then
    match brlToNumber (cellAt rows r vCol) with
    | some n => some ⟨descAt rows r dCol, n⟩
    | none => none
  else none

/-- The block item loop of `src/unnamed/part_000`. -/
def scanBlockAux (rows : Grid) (eD eV sD sV stop : Nat) :
    Nat → Nat → List LineItem × List LineItem
  | 0, _ => ([], [])
  | fuel+1, r =>
      if r < stop then
        if normalize (descAt rows r eD) = "total" ∨ normalize (descAt rows r sD) = "total"
        then ([], [])
        else
          let rest := scanBlockAux rows eD eV sD sV stop fuel (r+1)
          ((pickItem rows r eD eV).toList ++ rest.1, (pickItem rows r sD sV).toList ++ rest.2)
      else ([], [])

/-- The block item loop of `src/unnamed/part_000` from row `r`. -/
def scanBlock (rows : Grid) (eD eV sD sV stop r : Nat) : List LineItem × List LineItem :=
  scanBlockAux rows eD eV sD sV stop (stop - r) r

/-- The `saidas.sort` comparator order of `src/unnamed/part_000`. -/
def saidaGt (x y : LineItem) : Bool :=
  match x.amount, y.amount with
  | .posInf, .posInf => false
  | .posInf, _ => true
  | _, .posInf => false
  | .negInf, _ => false
  | _, .negInf => true
  | .nan, .nan => false
  | .nan, .finite b => decide (b < 0)
  | .finite a, .nan => decide (0 < a)
  | .finite a, .finite b => decide (b < a)

/-- The `PeriodDetail` of an anchor in `src/unnamed/part_000`. -/
def blockPeriodDetail (rows : Grid) (a : Anchor) : Option PeriodDetail :=
  match blockCols rows a with
  | none => none
  | some (eDc, sDc) =>
      let p := scanBlock rows eDc (eDc+2) sDc (sDc+2) (min rows.length (a.r+60)) (a.r+2)
      some { date := isoDateFromMonth a.month 2026
             entradas := p.1
             saidas := stableSortBy saidaGt p.2 }

/-- The body of the tabela4 loop of `src/unnamed/part_000`. -/
def detalheStep (rows : Grid) (m : List (String × PeriodDetail)) (a : Anchor) :
    List (String × PeriodDetail) :=
  match blockPeriodDetail rows a with
  | some d => upsert a.month d m
  | none => m

/-- The tabela4 loop of `src/unnamed/part_000`. -/
def buildDetalhe (rows : Grid) : List (String × PeriodDetail) :=
  (findMonthAnchors rows).foldl (detalheStep rows) []

/-- `parseWorkbook` of `src/unnamed/part_000`. -/
def parseWorkbook (wb : List Grid) (now : String) : Result :=
  let rows := wb.headD []
  { meta := { year := 2026, updatedAt := now }
    dashboard := { tabela1 := tabela1Scan rows
                   tabela2 := parseMini rows "Nubank"
                   tabela3 := parseMini rows "Santander" }
    detalheMensal := buildDetalhe rows }

end Part000

/-- Everything of a `Result` except the generated `updatedAt` timestamp. -/
def resultSansTime (r : Result) :
    Nat × List SummaryRow × List SeriesPoint × List SeriesPoint ×
      List (String × PeriodDetail) :=
  (r.meta.year, r.dashboard.tabela1, r.dashboard.tabela2, r.dashboard.tabela3,
    r.detalheMensal)

/-!
### Declarative scan characterisations (spec-shaped)

These definitions restate the loop behaviour in the spec's vocabulary
(window of row indices, stop sentinel, per-row emission test); the claim
theorems prove the loop embeddings equal to them.
-/

/-- Spec-shaped: row `rr` does not carry the `total` sentinel in its first
cell. -/
def notTotalAt (rows : Grid) (rr : Nat) : Bool :=
  !(normalize (cellStr rows rr 0) == "total")

/-- Spec-shaped: the `SeriesPoint` a mini-table row yields, or `none` for a
blank or unrecognised period cell. -/
def miniPick (rows : Grid) (rr : Nat) : Option SeriesPoint :=
  if cellStr rows rr 0 ≠ "" ∧ (monthMap (normalize (cellStr rows rr 0))).isSome
  then some (mkSeriesPoint rows rr) else none

/-- Spec-shaped: block row `r` carries the `total` sentinel in neither
description column. -/
def blockNotTotal (rows : Grid) (eD sD : Nat) (r : Nat) : Bool :=
  !(normalize (descAt rows r eD) == "total" || normalize (descAt rows r sD) == "total")

/-- Spec-shaped: the detail of the last anchor in scan order whose (raw,
trimmed) month text is `k` and whose block is processable. -/
def lastDetailFor (rows : Grid) (k : String) : Option PeriodDetail :=
  ((findMonthAnchors rows).filterMap (fun a =>
    if a.month = k then blockPeriodDetail rows a else none)).getLast?

/-! ### Concrete grids used by the individual claims -/

/-- Claim C1's grid: a title row, a blank row, the header at row 2, one
data row, the `Total` sentinel row, and a month row after the sentinel. -/
def gC1 : Grid := [
  [Cell.str "Dívida 2026"],
  [],
  [Cell.str "mês", Cell.str "entrada", Cell.str "saída", Cell.str "líquido",
   Cell.str "dif", Cell.str "cresc"],
  [Cell.str "Janeiro", Cell.str "1.000,00", Cell.str "500,00", Cell.str "500,00",
   Cell.str "0", Cell.str "—"],
  [Cell.str "Total", Cell.str "1.000,00", Cell.str "500,00", Cell.str "500,00",
   Cell.str "", Cell.str ""],
  [Cell.str "Fevereiro", Cell.str "2.000,00", Cell.str "600,00", Cell.str "1.400,00",
   Cell.str "900", Cell.str "+100%"]]

/-- Claim C2's grid: header at row 0 and one data row whose five value
cells are pairwise distinct. -/
def gC2 : Grid := [
  [Cell.str "mês", Cell.str "entrada", Cell.str "saída", Cell.str "líquido",
   Cell.str "dif", Cell.str "cresc"],
  [Cell.str "Janeiro", Cell.str "111,00", Cell.str "222,00", Cell.str "333,00",
   Cell.str "0", Cell.str ""],
  [Cell.str "Total"]]

/-- The summary row that the primary scan emits from claim C2's grid. -/
def gC2row : SummaryRow :=
  { month := "Janeiro", date := some "2026-01-01",
    entrada := some (JSNum.finite 111), saida := some (JSNum.finite 222),
    liquido := some (JSNum.finite 333), diferenca_m1 := some (JSNum.finite 0),
    crescimento := none }

/-- Claim C3's grid: a `Fevereiro` block anchor at (0,0) with the inflow
label at sub-header offset 0 and the outflow label at offset 4, and three
data rows of which the second has a blank inflow description; the outflow
amounts 50, 100, 50 exercise the descending sort and its stability. -/
def gC3 : Grid := [
  [Cell.str "Fevereiro"],
  [Cell.str "entrada", Cell.str "", Cell.str "", Cell.str "", Cell.str "saída"],
  [Cell.str "Aluguel", Cell.str "", Cell.str "100,00", Cell.str "",
   Cell.str "Mercado", Cell.str "", Cell.str "50,00"],
  [Cell.str "", Cell.str "", Cell.str "999", Cell.str "",
   Cell.str "Luz", Cell.str "", Cell.str "100,00"],
  [Cell.str "Salário", Cell.str "", Cell.str "200,00", Cell.str "",
   Cell.str "Internet", Cell.str "", Cell.str "50,00"],
  [Cell.str "Total"]]

/-- Claim C5's grid: a five-column sheet (so every data row lacks a sixth
cell), with the header at row 0 and one data row. -/
def gC5 : Grid := [
  [Cell.str "mês", Cell.str "entrada", Cell.str "saída", Cell.str "líquido",
   Cell.str "dif"],
  [Cell.str "Janeiro", Cell.str "10", Cell.str "20", Cell.str "30", Cell.str "40"],
  [Cell.str "Total"]]

/-- Claim C10's grid: a `Janeiro` block whose single inflow row carries a
number-typed NaN amount cell. -/
def gC10 : Grid := [
  [Cell.str "Janeiro"],
  [Cell.str "entrada", Cell.str "", Cell.str "", Cell.str "", Cell.str "saída"],
  [Cell.str "Mystery", Cell.str "", Cell.num JSNum.nan]]

/-! ### Cross-file equivalence lemmas (for claim C9) -/

theorem eqv_monthMap : Part000.monthMap = monthMap := rfl

theorem eqv_normalize : Part000.normalize = normalize := rfl

theorem eqv_mkSummaryRow : Part000.mkSummaryRow = mkSummaryRow := rfl

theorem eqv_mkSeriesPoint : Part000.mkSeriesPoint = mkSeriesPoint := rfl

theorem eqv_findHeaderRow : Part000.findHeaderRow = findHeaderRow := rfl

theorem eqv_findTitleRow : Part000.findTitleRow = findTitleRow := rfl

theorem eqv_findMonthAnchors : Part000.findMonthAnchors = findMonthAnchors := rfl

theorem eqv_blockCols : Part000.blockCols = blockCols := rfl

theorem eqv_pickItem : Part000.pickItem = pickItem := rfl

theorem eqv_saidaGt : Part000.saidaGt = saidaGt := rfl

theorem eqv_scanT1Aux (rows : Grid) (fuel r : Nat) :
    Part000.scanT1Aux rows fuel r = scanT1Aux rows fuel r := by
  induction fuel generalizing r with
  | zero => rfl
  | succ fuel ih =>
      simp only [Part000.scanT1Aux, scanT1Aux, eqv_monthMap, eqv_normalize,
        eqv_mkSummaryRow, ih]

theorem eqv_miniScanAux (rows : Grid) (stop fuel rr : Nat) :
    Part000.miniScanAux rows stop fuel rr = miniScanAux rows stop fuel rr := by
  induction fuel generalizing rr with
  | zero => rfl
  | succ fuel ih =>
      simp only [Part000.miniScanAux, miniScanAux, eqv_monthMap, eqv_normalize,
        eqv_mkSeriesPoint, ih]

theorem eqv_scanBlockAux (rows : Grid) (eD eV sD sV stop fuel r : Nat) :
    Part000.scanBlockAux rows eD eV sD sV stop fuel r
      = scanBlockAux rows eD eV sD sV stop fuel r := by
  induction fuel generalizing r with
  | zero => rfl
  | succ fuel ih =>
      simp only [Part000.scanBlockAux, scanBlockAux, eqv_normalize, eqv_pickItem, ih]

theorem eqv_tabela1Scan (rows : Grid) : Part000.tabela1Scan rows = tabela1Scan rows := by
  unfold Part000.tabela1Scan tabela1Scan Part000.scanT1 scanT1
  rw [eqv_findHeaderRow]
  cases findHeaderRow rows <;> simp [eqv_scanT1Aux]

theorem eqv_parseMini (rows : Grid) (title : String) :
    Part000.parseMini rows title = parseMini rows title := by
  unfold Part000.parseMini parseMini Part000.miniScan miniScan
  rw [eqv_findTitleRow]
  cases findTitleRow rows (jsToLower title) <;> simp [eqv_miniScanAux]

theorem eqv_blockPeriodDetail (rows : Grid) (a : Anchor) :
    Part000.blockPeriodDetail rows a = blockPeriodDetail rows a := by
  unfold Part000.blockPeriodDetail blockPeriodDetail Part000.scanBlock scanBlock
  rw [eqv_blockCols]
  cases blockCols rows a with
  | none => rfl
  | some p =>
      simp only [eqv_scanBlockAux, eqv_saidaGt]
      rfl

theorem eqv_detalheStep (rows : Grid) : Part000.detalheStep rows = detalheStep rows := by
  funext m a
  unfold Part000.detalheStep detalheStep
  rw [eqv_blockPeriodDetail]

theorem eqv_buildDetalhe (rows : Grid) : Part000.buildDetalhe rows = buildDetalhe rows := by
  unfold Part000.buildDetalhe buildDetalhe
  rw [eqv_findMonthAnchors, eqv_detalheStep]

/-! ### The tabela1 loop: provenance of an emitted row -/

theorem scanT1Aux_mem (rows : Grid) :
    ∀ (fuel r : Nat) (s : SummaryRow), s ∈ scanT1Aux rows fuel r →
      ∃ i, r ≤ i ∧ i < rows.length ∧ cellStr rows i 0 ≠ "" ∧
        (monthMap (normalize (cellStr rows i 0))).isSome = true ∧
        s = mkSummaryRow rows i (cellStr rows i 0) := by
  intro fuel
  induction fuel with
  | zero => intro r s h; simp [scanT1Aux] at h
  | succ fuel ih =>
      intro r s h
      simp only [scanT1Aux] at h
      by_cases h1 : r < rows.length
      · rw [if_pos h1] at h
        by_cases h2 : cellStr rows r 0 = ""
        · rw [if_pos h2] at h
          obtain ⟨i, hi1, hrest⟩ := ih (r+1) s h
          exact ⟨i, by omega, hrest⟩
        · rw [if_neg h2] at h
          by_cases h3 : (monthMap (normalize (cellStr rows r 0))).isNone = true
          · rw [if_pos h3] at h
            by_cases h4 : normalize (cellStr rows r 0) = "total"
            · rw [if_pos h4] at h; simp at h
            · rw [if_neg h4] at h
              obtain ⟨i, hi1, hrest⟩ := ih (r+1) s h
              exact ⟨i, by omega, hrest⟩
          · rw [if_neg h3] at h
            rcases List.mem_cons.mp h with hs | hs
            · refine ⟨r, le_refl r, h1, h2, ?_, hs⟩
              cases hm : monthMap (normalize (cellStr rows r 0)) with
              | none => rw [hm] at h3; simp at h3
              | some v => simp
            · obtain ⟨i, hi1, hrest⟩ := ih (r+1) s hs
              exact ⟨i, by omega, hrest⟩
      · rw [if_neg h1] at h; simp at h

/-! ### The parseMini loop: declarative characterisation -/

theorem miniScanAux_char (rows : Grid) (stop : Nat) :
    ∀ (fuel rr : Nat), stop - rr ≤ fuel →
      miniScanAux rows stop fuel rr =
        ((List.range' rr (stop - rr)).takeWhile (notTotalAt rows)).filterMap
          (miniPick rows) := by
  intro fuel
  induction fuel with
  | zero =>
      intro rr hf
      have h0 : stop - rr = 0 := by omega
      rw [h0]
      simp [miniScanAux]
  | succ fuel ih =>
      intro rr hf
      by_cases hr : rr < stop
      · have hsz : stop - rr = (stop - (rr+1)) + 1 := by omega
        rw [hsz, List.range'_succ]
        simp only [miniScanAux, if_pos hr]
        by_cases h2 : cellStr rows rr 0 = ""
        · have hnt : notTotalAt rows rr = true := by
            simp only [notTotalAt, h2]
            decide
          rw [List.takeWhile_cons_of_pos hnt, List.filterMap_cons, if_pos h2]
          have hmp : miniPick rows rr = none := by simp [miniPick, h2]
          rw [hmp, ih (rr+1) (by omega)]
        · rw [if_neg h2]
          by_cases h3 : normalize (cellStr rows rr 0) = "total"
          · have hnt : notTotalAt rows rr = false := by simp [notTotalAt, h3]
            rw [List.takeWhile_cons_of_neg (by simp [hnt]), if_pos h3]
            simp
          · have hnt : notTotalAt rows rr = true := by simp [notTotalAt, h3]
            rw [List.takeWhile_cons_of_pos hnt, List.filterMap_cons, if_neg h3]
            by_cases h4 : (monthMap (normalize (cellStr rows rr 0))).isNone = true
            · have hmp : miniPick rows rr = none := by
                simp only [miniPick, ite_eq_right_iff]
                intro hcon
                rw [Option.isNone_iff_eq_none] at h4
                rw [h4] at hcon
                simp at hcon
              rw [if_pos h4, hmp, ih (rr+1) (by omega)]
            · have hmp : miniPick rows rr = some (mkSeriesPoint rows rr) := by
                have : (monthMap (normalize (cellStr rows rr 0))).isSome = true := by
                  cases hm : monthMap (normalize (cellStr rows rr 0)) with
                  | none => rw [hm] at h4; simp at h4
                  | some v => simp
                simp [miniPick, h2, this]
              rw [if_neg h4, hmp, ih (rr+1) (by omega)]
      · have h0 : stop - rr = 0 := by omega
        rw [h0]
        simp [miniScanAux, hr]

/-! ### The block item loop: declarative characterisation and read frame -/

theorem scanBlockAux_char (rows : Grid) (eD eV sD sV stop : Nat) :
    ∀ (fuel r : Nat), stop - r ≤ fuel →
      scanBlockAux rows eD eV sD sV stop fuel r =
        (((List.range' r (stop - r)).takeWhile (blockNotTotal rows eD sD)).filterMap
            (fun i => pickItem rows i eD eV),
         ((List.range' r (stop - r)).takeWhile (blockNotTotal rows eD sD)).filterMap
            (fun i => pickItem rows i sD sV)) := by
  intro fuel
  induction fuel with
  | zero =>
      intro r hf
      have h0 : stop - r = 0 := by omega
      rw [h0]
      simp [scanBlockAux]
  | succ fuel ih =>
      intro r hf
      by_cases hr : r < stop
      · have hsz : stop - r = (stop - (r+1)) + 1 := by omega
        rw [hsz, List.range'_succ]
        simp only [scanBlockAux, if_pos hr]
        by_cases h2 : normalize (descAt rows r eD) = "total"
            ∨ normalize (descAt rows r sD) = "total"
        · have hnt : blockNotTotal rows eD sD r = false := by
            rcases h2 with h | h <;> simp [blockNotTotal, h]
          rw [if_pos h2, List.takeWhile_cons_of_neg (by simp [hnt])]
          simp
        · have hnt : blockNotTotal rows eD sD r = true := by
            simp only [blockNotTotal, Bool.not_eq_true']
            push_neg at h2
            simp [h2.1, h2.2]
          rw [if_neg h2, List.takeWhile_cons_of_pos hnt, List.filterMap_cons,
            List.filterMap_cons, ih (r+1) (by omega)]
          cases pickItem rows r eD eV <;> cases pickItem rows r sD sV <;> simp
      · have h0 : stop - r = 0 := by omega
        rw [h0]
        simp [scanBlockAux, hr]

theorem rowOf_take (rows : Grid) (n r : Nat) (h : r < n) :
    rowOf (rows.take n) r = rowOf rows r := by
  unfold rowOf
  induction rows generalizing n r with
  | nil => simp
  | cons hd tl ih =>
      cases n with
      | zero => omega
      | succ m =>
          cases r with
          | zero => simp
          | succ rr => simpa using ih m rr (by omega)

theorem cellAt_take (rows : Grid) (n r c : Nat) (h : r < n) :
    cellAt (rows.take n) r c = cellAt rows r c := by
  unfold cellAt
  rw [rowOf_take rows n r h]

theorem descAt_take (rows : Grid) (n r c : Nat) (h : r < n) :
    descAt (rows.take n) r c = descAt rows r c := by
  unfold descAt
  rw [cellAt_take rows n r c h]

theorem pickItem_take (rows : Grid) (n r dCol vCol : Nat) (h : r < n) :
    pickItem (rows.take n) r dCol vCol = pickItem rows r dCol vCol := by
  unfold pickItem
  rw [descAt_take rows n r dCol h, cellAt_take rows n r vCol h]

theorem scanBlockAux_take (rows : Grid) (n eD eV sD sV stop : Nat) (hn : stop ≤ n) :
    ∀ (fuel r : Nat),
      scanBlockAux (rows.take n) eD eV sD sV stop fuel r
        = scanBlockAux rows eD eV sD sV stop fuel r := by
  intro fuel
  induction fuel with
  | zero => intro r; rfl
  | succ fuel ih =>
      intro r
      by_cases hr : r < stop
      · have hrn : r < n := by omega
        simp only [scanBlockAux, if_pos hr, descAt_take rows n r eD hrn,
          descAt_take rows n r sD hrn, pickItem_take rows n r eD eV hrn,
          pickItem_take rows n r sD sV hrn, ih]
      · simp only [scanBlockAux, if_neg hr]

theorem blockPeriodDetail_take (rows : Grid) (a : Anchor) :
    blockPeriodDetail (rows.take (a.r + 60)) a = blockPeriodDetail rows a := by
  have hh : headerSlice (rows.take (a.r + 60)) a = headerSlice rows a := by
    unfold headerSlice
    rw [rowOf_take rows (a.r + 60) (a.r + 1) (by omega)]
  have hc : blockCols (rows.take (a.r + 60)) a = blockCols rows a := by
    unfold blockCols
    rw [hh]
  unfold blockPeriodDetail
  rw [hc]
  cases blockCols rows a with
  | none => rfl
  | some p =>
      obtain ⟨eDc, sDc⟩ := p
      have hlen : min (rows.take (a.r + 60)).length (a.r + 60)
          = min rows.length (a.r + 60) := by
        simp only [List.length_take]
        omega
      unfold scanBlock
      dsimp only
      rw [hlen]
      simp only [scanBlockAux_take rows (a.r + 60) eDc (eDc+2) sDc (sDc+2)
        (min rows.length (a.r + 60)) (Nat.min_le_right _ _)]

/-! ### The detalheMensal map: last write wins -/

theorem getLast_cons_getD (x : α) (l : List α) :
    (x :: l).getLast? = some (l.getLast?.getD x) := by
  induction l generalizing x with
  | nil => rfl
  | cons y t ih =>
      rw [List.getLast?_cons_cons, ih y]
      simp

theorem alookup_upsert (k kk : String) (v : PeriodDetail)
    (m : List (String × PeriodDetail)) :
    alookup k (upsert kk v m) = if kk = k then some v else alookup k m := by
  induction m with
  | nil => simp [upsert, alookup]
  | cons hd tl ih =>
      obtain ⟨k', v'⟩ := hd
      by_cases h1 : k' = kk
      · subst h1
        simp only [upsert, if_pos rfl, alookup]
        by_cases h2 : k' = k <;> simp [h2]
      · simp only [upsert, if_neg h1, alookup]
        by_cases h2 : k' = k
        · subst h2
          rw [if_pos rfl, if_pos rfl]
          have h3 : ¬ (k' = kk) := h1
          rw [if_neg (fun hkk => h3 hkk.symm)]
        · rw [if_neg h2, if_neg h2, ih]

theorem detalheStep_eq_some (rows : Grid) (m : List (String × PeriodDetail))
    (a : Anchor) (d : PeriodDetail) (h : blockPeriodDetail rows a = some d) :
    detalheStep rows m a = upsert a.month d m := by
  unfold detalheStep
  rw [h]

theorem detalheStep_eq_none (rows : Grid) (m : List (String × PeriodDetail))
    (a : Anchor) (h : blockPeriodDetail rows a = none) :
    detalheStep rows m a = m := by
  unfold detalheStep
  rw [h]

theorem alookup_foldl_detalhe (rows : Grid) (k : String) :
    ∀ (anchors : List Anchor) (m : List (String × PeriodDetail)),
      alookup k (anchors.foldl (detalheStep rows) m) =
        match (anchors.filterMap (fun a =>
            if a.month = k then blockPeriodDetail rows a else none)).getLast? with
        | some d => some d
        | none => alookup k m := by
  intro anchors
  induction anchors with
  | nil => intro m; simp
  | cons a l ih =>
      intro m
      rw [List.foldl_cons]
      cases hd : blockPeriodDetail rows a with
      | none =>
          have hsel : List.filterMap (fun a =>
              if a.month = k then blockPeriodDetail rows a else none) (a :: l)
              = List.filterMap (fun a =>
                if a.month = k then blockPeriodDetail rows a else none) l := by
            simp [List.filterMap_cons, hd]
          rw [detalheStep_eq_none rows m a hd, ih m, hsel]
      | some d =>
          rw [detalheStep_eq_some rows m a d hd, ih (upsert a.month d m)]
          by_cases hk : a.month = k
          · have hsel : List.filterMap (fun a =>
                if a.month = k then blockPeriodDetail rows a else none) (a :: l)
                = d :: List.filterMap (fun a =>
                  if a.month = k then blockPeriodDetail rows a else none) l := by
              simp [List.filterMap_cons, hd, hk]
            rw [hsel, getLast_cons_getD]
            cases hl : (l.filterMap (fun a =>
                if a.month = k then blockPeriodDetail rows a else none)).getLast? with
            | some d2 => simp [hl]
            | none => simp [hl, alookup_upsert, hk]
          · have hsel : List.filterMap (fun a =>
                if a.month = k then blockPeriodDetail rows a else none) (a :: l)
                = List.filterMap (fun a =>
                  if a.month = k then blockPeriodDetail rows a else none) l := by
              simp [List.filterMap_cons, hk]
            rw [hsel]
            cases hl : (l.filterMap (fun a =>
                if a.month = k then blockPeriodDetail rows a else none)).getLast? with
            | some d2 => simp [hl]
            | none => simp [hl, alookup_upsert, hk]

/-! ## The claims -/

/-- C1: on the grid whose row 2 is the header
`["mês","entrada","saída","líquido","dif","cresc"]`, followed by the data
row `["Janeiro","1.000,00","500,00","500,00","0","—"]` and a `Total` row,
the primary scan finds the header at row 2 and yields exactly one summary
row with period `Janeiro`, isoDate `2026-01-01`, inflow 1000, outflow 500
and net 500, emitting nothing from the `Total` row or the month row placed
after it. -/
theorem claimC1_primary_scan_january :
    findHeaderRow gC1 = some 2 ∧
    (parseWorkbook [gC1] "ts").dashboard.tabela1 =
      [{ month := "Janeiro", date := some "2026-01-01",
         entrada := some (JSNum.finite 1000), saida := some (JSNum.finite 500),
         liquido := some (JSNum.finite 500), diferenca_m1 := some (JSNum.finite 0),
         crescimento := some "—" }] := by
  constructor
  · decide
  · decide

/-- C2 counterexample: on a grid whose single data row has `111,00` in
column 1 and `222,00` in column 2, the emitted row's outflow (`saida`) is
222, not the value parsed from column 1 — so the claim that column 1 holds
the outflow value is false on the code (column 1 feeds the inflow field). -/
theorem claimC2_counterexample :
    (parseWorkbook [gC2] "ts").dashboard.tabela1 =
      [{ month := "Janeiro", date := some "2026-01-01",
         entrada := some (JSNum.finite 111), saida := some (JSNum.finite 222),
         liquido := some (JSNum.finite 333), diferenca_m1 := some (JSNum.finite 0),
         crescimento := none }] ∧
    brlToNumber (cellAt gC2 1 1) = some (JSNum.finite 111) ∧
    (parseWorkbook [gC2] "ts").dashboard.tabela1.map SummaryRow.saida
      ≠ [brlToNumber (cellAt gC2 1 1)] := by
  refine ⟨by decide, by decide, by decide⟩

/-- C2 (amended): every emitted primary-table row reads columns 1–5 as
inflow (`entrada`), outflow (`saida`), net, delta-previous and growth
label in that order — column 1 holds the inflow value and column 2 the
outflow value — with `brlToNumber` applied to the four numeric columns. -/
theorem claimC2_column_order (rows : Grid) (s : SummaryRow)
    (hs : s ∈ tabela1Scan rows) :
    ∃ r, s.month = cellStr rows r 0 ∧
      s.entrada = brlToNumber (cellAt rows r 1) ∧
      s.saida = brlToNumber (cellAt rows r 2) ∧
      s.liquido = brlToNumber (cellAt rows r 3) ∧
      s.diferenca_m1 = brlToNumber (cellAt rows r 4) ∧
      s.crescimento = (if jsTrim (jsString (cellAt rows r 5)) = "" then none
                       else some (jsTrim (jsString (cellAt rows r 5)))) := by
  unfold tabela1Scan at hs
  cases hh : findHeaderRow rows with
  | none => rw [hh] at hs; simp at hs
  | some h =>
      rw [hh] at hs
      unfold scanT1 at hs
      obtain ⟨i, hi1, hi2, hi3, hi4, hsi⟩ := scanT1Aux_mem rows _ _ s hs
      subst hsi
      exact ⟨i, rfl, rfl, rfl, rfl, rfl, rfl⟩

/-- C2 witness: the amended theorem applied to the C2 grid's emitted row. -/
theorem claimC2_column_order_witness :
    ∃ r, gC2row.month = cellStr gC2 r 0 ∧
      gC2row.entrada = brlToNumber (cellAt gC2 r 1) ∧
      gC2row.saida = brlToNumber (cellAt gC2 r 2) ∧
      gC2row.liquido = brlToNumber (cellAt gC2 r 3) ∧
      gC2row.diferenca_m1 = brlToNumber (cellAt gC2 r 4) ∧
      gC2row.crescimento = (if jsTrim (jsString (cellAt gC2 r 5)) = "" then none
                            else some (jsTrim (jsString (cellAt gC2 r 5)))) :=
  claimC2_column_order gC2 gC2row (by decide)

/-- C3: on the `Fevereiro` block whose sub-header places the inflow label
at offset 0 and the outflow label at offset 4, with three data rows of
which the second has a blank inflow description but a valid outflow, the
resulting detail has exactly 2 inflow items and 3 outflow items, and the
outflow items are sorted descending by amount, stably (the two 50-amount
items keep their original row order). -/
theorem claimC3_fevereiro_block :
    blockCols gC3 ⟨"Fevereiro", 0, 0⟩ = some (0, 4) ∧
    (parseWorkbook [gC3] "ts").detalheMensal =
      [("Fevereiro",
        { date := some "2026-02-01",
          entradas := [⟨"Aluguel", JSNum.finite 100⟩, ⟨"Salário", JSNum.finite 200⟩],
          saidas := [⟨"Luz", JSNum.finite 100⟩, ⟨"Mercado", JSNum.finite 50⟩,
                     ⟨"Internet", JSNum.finite 50⟩] })] := by
  refine ⟨by decide, by decide⟩

/-- C4: a workbook with no sheets, or one whose first sheet is entirely
empty (materialised as the empty grid), still yields a well-formed result
whose primary table, both mini-table series and period-detail map are all
empty — a successful output, not a failure. -/
theorem claimC4_empty_workbook (rest : List Grid) (t : String) :
    (parseWorkbook [] t).dashboard.tabela1 = [] ∧
    (parseWorkbook [] t).dashboard.tabela2 = [] ∧
    (parseWorkbook [] t).dashboard.tabela3 = [] ∧
    (parseWorkbook [] t).detalheMensal = [] ∧
    (parseWorkbook ([] :: rest) t).dashboard.tabela1 = [] ∧
    (parseWorkbook ([] :: rest) t).dashboard.tabela2 = [] ∧
    (parseWorkbook ([] :: rest) t).dashboard.tabela3 = [] ∧
    (parseWorkbook ([] :: rest) t).detalheMensal = [] :=
  ⟨rfl, rfl, rfl, rfl, rfl, rfl, rfl, rfl⟩

/-- C5 counterexample: on a five-column sheet the data row's sixth cell is
out of range; the emitted row's growth label is the string `"undefined"`
(the stringified JS `undefined`), not `null`, and the out-of-range cell is
not the empty string — refuting the claim as stated. -/
theorem claimC5_counterexample :
    (parseWorkbook [gC5] "ts").dashboard.tabela1 =
      [{ month := "Janeiro", date := some "2026-01-01",
         entrada := some (JSNum.finite 10), saida := some (JSNum.finite 20),
         liquido := some (JSNum.finite 30), diferenca_m1 := some (JSNum.finite 40),
         crescimento := some "undefined" }] ∧
    (rowOf gC5 1).length = 5 ∧
    cellAt gC5 1 5 ≠ Cell.str "" ∧
    (parseWorkbook [gC5] "ts").dashboard.tabela1.map SummaryRow.crescimento
      ≠ [none] := by
  refine ⟨by decide, by decide, by decide, by decide⟩

/-- C5 (amended): an out-of-range cell read yields JS `undefined` (never an
error); `brlToNumber` maps it to `null`, so the numeric columns of a short
row are `null`, but the growth-label column stringifies it, so a
primary-table data row with fewer than six cells gets the growth label
`"undefined"`, not `null`. -/
theorem claimC5_out_of_range (rows : Grid) (r c : Nat)
    (h : (rowOf rows r).length ≤ c) :
    cellAt rows r c = Cell.undef ∧
    brlToNumber (cellAt rows r c) = none ∧
    jsString (cellAt rows r c) = "undefined" ∧
    (c = 5 → ∀ month, (mkSummaryRow rows r month).crescimento = some "undefined") := by
  have hu : cellAt rows r c = Cell.undef := by
    unfold cellAt cellOf
    exact List.getD_eq_default _ _ h
  refine ⟨hu, by rw [hu]; rfl, by rw [hu]; rfl, ?_⟩
  intro hc month
  subst hc
  unfold mkSummaryRow
  rw [hu]
  dsimp only
  decide

/-- C5 witness: the amended theorem applied at the out-of-range sixth cell
of the C5 grid's data row. -/
theorem claimC5_out_of_range_witness :
    cellAt gC5 1 5 = Cell.undef ∧
    brlToNumber (cellAt gC5 1 5) = none ∧
    jsString (cellAt gC5 1 5) = "undefined" ∧
    (5 = 5 → ∀ month, (mkSummaryRow gC5 1 month).crescimento = some "undefined") :=
  claimC5_out_of_range gC5 1 5 (by decide)

/-- C6: the block item scan visits exactly the rows of the window from two
rows below the anchor up to (exclusively) `min(row count, anchor row + 60)`
— every visited index lies within 60 rows below the sub-header row, and
truncating the grid there leaves the extracted detail unchanged — and both
item lists are collected from the longest prefix of that window on which
neither description column normalises to the `total` sentinel. -/
theorem claimC6_block_scan_window (rows : Grid) (a : Anchor) (eD eV sD sV : Nat) :
    scanBlock rows eD eV sD sV (min rows.length (a.r + 60)) (a.r + 2) =
      (((List.range' (a.r + 2) (min rows.length (a.r + 60) - (a.r + 2))).takeWhile
          (blockNotTotal rows eD sD)).filterMap (fun i => pickItem rows i eD eV),
       ((List.range' (a.r + 2) (min rows.length (a.r + 60) - (a.r + 2))).takeWhile
          (blockNotTotal rows eD sD)).filterMap (fun i => pickItem rows i sD sV))
    ∧ ((List.range' (a.r + 2) (min rows.length (a.r + 60) - (a.r + 2))).all
        (fun i => decide (a.r + 2 ≤ i ∧ i < a.r + 60))) = true
    ∧ blockPeriodDetail (rows.take (a.r + 60)) a = blockPeriodDetail rows a := by
  refine ⟨?_, ?_, blockPeriodDetail_take rows a⟩
  · unfold scanBlock
    exact scanBlockAux_char rows eD eV sD sV _ _ _ (le_refl _)
  · simp only [List.all_eq_true, decide_eq_true_eq]
    intro i hi
    have hm := List.mem_range'_1.mp hi
    omega

/-- C7: `parseMini` returns the empty sequence when no cell matches the
title (case-insensitively, on trimmed cells); otherwise, with `r` the first
matching row, it reads the window of at most 39 rows `r+1 … min(row count,
r+40)-1`, stopping at the first first-cell `total` sentinel and keeping,
of the remaining rows, exactly those whose first cell is a recognised
month — each as period (column 0) and outflow value (column 1). -/
theorem claimC7_parseMini_spec (rows : Grid) (title : String) :
    parseMini rows title =
      (match findTitleRow rows (jsToLower title) with
       | none => []
       | some r =>
           ((List.range' (r + 1) (min rows.length (r + 40) - (r + 1))).takeWhile
              (notTotalAt rows)).filterMap (miniPick rows)) := by
  unfold parseMini
  cases hh : findTitleRow rows (jsToLower title) with
  | none => rfl
  | some r =>
      unfold miniScan
      exact miniScanAux_char rows _ _ _ (le_refl _)

/-- C8: looking up any period text in the built `detalheMensal` map yields
exactly the detail produced by the last anchor in scan order bearing that
raw text (and whose block is processable) — last write wins, and the lists
of earlier same-text anchors are never merged in. -/
theorem claimC8_last_write_wins (rows : Grid) (k : String) :
    alookup k (buildDetalhe rows) = lastDetailFor rows k := by
  unfold buildDetalhe lastDetailFor
  rw [alookup_foldl_detalhe rows k (findMonthAnchors rows) []]
  cases hl : ((findMonthAnchors rows).filterMap (fun a =>
      if a.month = k then blockPeriodDetail rows a else none)).getLast? with
  | none => rfl
  | some d => rfl

/-- C9: the two source files' `parseWorkbook` functions produce equal
results on every workbook, apart from the generated `updatedAt`
timestamp. -/
theorem claimC9_file_equivalence (wb : List Grid) (t1 t2 : String) :
    resultSansTime (parseWorkbook wb t1)
      = resultSansTime (Part000.parseWorkbook wb t2) := by
  unfold parseWorkbook Part000.parseWorkbook resultSansTime
  dsimp only
  rw [eqv_tabela1Scan, eqv_parseMini, eqv_parseMini, eqv_buildDetalhe]

/-- C10: `brlToNumber` returns every number-typed cell value unchanged —
including the non-finite `NaN` — so a line item built from a number-typed
`NaN` amount cell is kept with a non-finite amount (on the C10 grid the
`Janeiro` block stores the item `Mystery` with amount `NaN`). -/
theorem claimC10_number_passthrough :
    (∀ v : JSNum, brlToNumber (Cell.num v) = some v) ∧
    isFiniteJS JSNum.nan = false ∧
    alookup "Janeiro" ((parseWorkbook [gC10] "ts").detalheMensal) =
      some { date := some "2026-01-01",
             entradas := [⟨"Mystery", JSNum.nan⟩], saidas := [] } := by
  refine ⟨fun v => rfl, rfl, by decide⟩

end Divida
